import Mathlib

/-!
Shallow embedding of `src/room_util.py` (google_cal_room_utilization).

The script fetches Google Calendar events for a list of conference rooms,
aggregates attendance per room, formats a textual report and posts it as an
Asana task.  Python runtime errors that the claims talk about (KeyError on a
missing dict key, ZeroDivisionError on division by a zero float) are made
explicit with `Except PyError`.  The float arithmetic of lines 126-127 is
modelled exactly: binary64 values are dyadic rationals rounded to a 53-bit
significand with ties to even at the int-to-float conversion, the division
and the multiplication, and `'{:0.2f}'.format` rounds the exact binary value
of the double to hundredths with ties to even, as CPython does.
The two remote HTTP services are modelled as function parameters: `fetch`
maps a room to the optional `items` array of its calendar query response
(`none` models a response JSON without an `items` key), and the Asana client
is modelled by returning the list of created tasks.
-/

namespace RoomUtil

/-- Python runtime errors relevant to this program. -/
inductive PyError where
  | keyError : PyError
  | zeroDivisionError : PyError
deriving DecidableEq, Repr

/-- An entry of an event's `attendees` list.  `responseStatus = none` models a
dict that lacks the `responseStatus` key. -/
structure Attendee where
  responseStatus : Option String
deriving DecidableEq, Repr

/-- A calendar event; only the `attendees` field is used by the program.
`attendees = none` models an event dict without an `attendees` key. -/
structure Event where
  attendees : Option (List Attendee)
deriving DecidableEq, Repr

/-- A room record from `rooms.json`. -/
structure Room where
  name : String
  url : String
  room_seats : Nat
deriving DecidableEq, Repr

/-- The `"declined"` response status literal. -/
def declinedStr : String := "declined"

/-- `attendee['responseStatus']`: an unguarded dict lookup, KeyError when the
key is absent. -/
def lookupResponseStatus (a : Attendee) : Except PyError String :=
  match a.responseStatus with
  | none => Except.error PyError.keyError
  | some s => Except.ok s

/-- The list comprehension
`[attendee for attendee in event['attendees'] if attendee['responseStatus'] != 'declined']`. -/
def nonDeclined : List Attendee → Except PyError (List Attendee)
  | [] => Except.ok []
  | a :: rest => do
      let s ← lookupResponseStatus a
      let tail ← nonDeclined rest
      if s != declinedStr then Except.ok (a :: tail) else Except.ok tail

/-- The per-event contribution to `number_of_attendees` (lines 117-123 of the
source): 1 when the event has no `attendees` key, otherwise the length of the
non-declined comprehension. -/
def eventAttendeeContribution (e : Event) : Except PyError Nat :=
  match e.attendees with
  | none => Except.ok 1
  | some l => do
      let nd ← nonDeclined l
      Except.ok nd.length

/-- The accumulation of `number_of_attendees` over the event loop. -/
def countAttendees : List Event → Except PyError Nat
  | [] => Except.ok 0
  | e :: rest => do
      let c ← eventAttendeeContribution e
      let r ← countAttendees rest
      Except.ok (c + r)

/-- Zero-pad a natural number below 100 to two digits. -/
def pad2 (n : Nat) : String :=
  if n < 10 then "0" ++ toString n else toString n

/-- Render a count of hundredths as a fixed-point decimal with exactly two
digits after the point. -/
def render2 (n : Nat) : String :=
  toString (n / 100) ++ "." ++ pad2 (n % 100)

/-- Round a rational to the nearest integer, ties to even. -/
def roundHalfEven (x : ℚ) : ℤ :=
  let f : ℤ := ⌊x⌋
  let r : ℚ := x - f
  if r < 1/2 then f
  else if 1/2 < r then f + 1
  else if f % 2 = 0 then f else f + 1

/-- Two-decimal rendering of an exact rational (what `'{:0.2f}'` would print
if the value reached it unrounded).  The program itself prints binary64
values; see `formatF64_2f`. -/
def format0_2f (q : ℚ) : String :=
  let n : ℤ := roundHalfEven (q * 100)
  if n < 0 then "-" ++ render2 n.natAbs else render2 n.natAbs

/-! ### IEEE-754 binary64 arithmetic

Lines 126-127 compute `util` in Python floats.  A nonnegative binary64 value
is modelled exactly as a dyadic rational `m * 2^e`; every operation the
program performs (int-to-float conversion, division, multiplication, and the
decimal rounding inside `'{:0.2f}'`) rounds to nearest with ties to even.
The exponent is unbounded: within the range the claims quantify over
(operands below `2^53`) this agrees bit-for-bit with binary64, which neither
overflows nor goes subnormal there. -/

/-- Round-half-even division of `N` by `D > 0`. -/
def rhfNat (N D : Nat) : Nat :=
  let f := N / D
  let r := N % D
  if 2 * r < D then f
  else if D < 2 * r then f + 1
  else if f % 2 = 0 then f else f + 1

/-- Fuel-driven floor of the base-2 logarithm. -/
def log2fuel : Nat → Nat → Nat
  | 0, _ => 0
  | fuel + 1, n => if 2 ≤ n then log2fuel fuel (n / 2) + 1 else 0

/-- Floor of the base-2 logarithm of a positive natural. -/
def nlog2 (n : Nat) : Nat := log2fuel n n

/-- A nonnegative binary64 value as an exact dyadic `m * 2^e` (the
significand is not kept normalized; only the denoted value matters). -/
structure F64 where
  m : Nat
  e : Int
deriving DecidableEq, Repr

/-- Round `m * 2^e` to a 53-bit significand, ties to even. -/
def round53 (m : Nat) (e : Int) : F64 :=
  let b := nlog2 m
  if b ≤ 52 then ⟨m, e⟩
  else
    let s := b - 52
    ⟨rhfNat m (2 ^ s), e + s⟩

/-- Binary64 conversion of a nonnegative Python int (exact below `2^53`,
rounded to nearest even above). -/
def natToF64 (n : Nat) : F64 := round53 n 0

/-- Floor of the base-2 logarithm of `p / q` for positive `p`, `q`. -/
def qlog2 (p q : Nat) : Int :=
  let c : Int := (nlog2 p : Int) - (nlog2 q : Int)
  if 0 ≤ c then
    (if q * 2 ^ c.toNat ≤ p then c else c - 1)
  else
    (if q ≤ p * 2 ^ (-c).toNat then c else c - 1)

/-- Binary64 division, round to nearest with ties to even (the divisor is
nonzero whenever the program reaches a division). -/
def divF64 (a b : F64) : F64 :=
  if a.m = 0 then ⟨0, 0⟩
  else
    let E := qlog2 a.m b.m
    let s : Int := 52 - E
    let N := if 0 ≤ s then a.m * 2 ^ s.toNat else a.m
    let D := if 0 ≤ s then b.m else b.m * 2 ^ (-s).toNat
    ⟨rhfNat N D, a.e - b.e + E - 52⟩

/-- Binary64 multiplication, round to nearest with ties to even. -/
def mulF64 (a b : F64) : F64 := round53 (a.m * b.m) (a.e + b.e)

/-- The hundredths integer `'{:0.2f}'` prints for a nonnegative binary64
value: the exact value times 100, rounded half to even (CPython rounds the
exact binary value of the double). -/
def hundredths (x : F64) : Nat :=
  if 0 ≤ x.e then x.m * 100 * 2 ^ x.e.toNat
  else rhfNat (x.m * 100) (2 ^ (-x.e).toNat)

/-- `'{:0.2f}'.format(util)` for the binary64 value `util`. -/
def formatF64_2f (x : F64) : String := render2 (hundredths x)

/-- The literal `' Utilization %: '` piece of a per-room report line. -/
def utilLabel : String := " Utilization %: "

/-- `events = events_response.json().get('items', [])`: an absent `items`
key yields the empty list. -/
def roomEvents (fetch : Room → Option (List Event)) (room : Room) : List Event :=
  (fetch room).getD []

/-- The body of the per-room loop of `generate_room_util_report`
(lines 89-130): skip the room when no events are returned (`.ok none`),
otherwise count attendees (which can raise KeyError), compute
`util = number_of_attendees / float(number_of_meetings * room_seats) * 100`
in binary64 and emit the report line.  `float(k) == 0.0` exactly when
`k == 0`, so the ZeroDivisionError of line 127 is tested on the integer
capacity before the float chain. -/
def processRoom (fetch : Room → Option (List Event)) (room : Room) :
    Except PyError (Option String) :=
  let events := roomEvents fetch room
  if events.isEmpty then Except.ok none
  else do
    let number_of_attendees ← countAttendees events
    let number_of_meetings : Nat := events.length
    let cap_int : Nat := number_of_meetings * room.room_seats
    if cap_int = 0 then Except.error PyError.zeroDivisionError
    else
      Except.ok (some (room.name ++ utilLabel ++
        formatF64_2f (mulF64 (divF64 (natToF64 number_of_attendees)
          (natToF64 cap_int)) (natToF64 100))))

/-- The accumulation of `room_utilization_strs` over the room loop; a skipped
room appends nothing. -/
def collectRoomStrs (fetch : Room → Option (List Event)) :
    List Room → Except PyError (List String)
  | [] => Except.ok []
  | r :: rest => do
      let s? ← processRoom fetch r
      let tail ← collectRoomStrs fetch rest
      match s? with
      | none => Except.ok tail
      | some s => Except.ok (s :: tail)

/-- The calendar date carried by a datetime, as consumed by
`strftime("%m/%d/%Y")`. -/
structure Date where
  year : Nat
  month : Nat
  day : Nat
deriving DecidableEq, Repr

/-- `strftime("%m/%d/%Y")`. -/
def strftimeMDY (d : Date) : String :=
  pad2 d.month ++ "/" ++ pad2 d.day ++ "/" ++ toString d.year

/-- The newline joining the per-room lines. -/
def newline : String := "\n"

/-- The fixed report preamble (lines 132-143 of the source) with the start and
end dates substituted; `generate_room_util_report` appends the joined room
lines right after it. -/
def reportPreamble (start_date end_date : Date) : String :=
  "The room data below is pulled from calendar events between " ++
  strftimeMDY start_date ++ " and " ++ strftimeMDY end_date ++ ". \n\n" ++
  "Conference room utilization = (number of attendees for meetings in last " ++
  "30 days) / (number of meetings * max occupancy of room). The count of " ++
  "seats includes non-Asana folks and office hours. If a room has > 100% " ++
  "that means generally it\x27s over occupied. This seems to be the case " ++
  "for most of the phone rooms likely due to customers being invited on " ++
  "the calendar invite. The seat count includes accepted and non-responded " ++
  "calendar invites.\n\n"

/-- `generate_room_util_report` (lines 83-145): run the room loop, then build
the report string from the preamble and the `'\n'.join` of the room lines. -/
def generate_room_util_report (fetch : Room → Option (List Event))
    (room_list : List Room) (start_date end_date : Date) :
    Except PyError String := do
  let strs ← collectRoomStrs fetch room_list
  Except.ok (reportPreamble start_date end_date ++ String.intercalate newline strs)

/-! ### OAuth session manager (`create_google_oauth_session`, lines 36-80) -/

/-- The persisted OAuth token (the JSON content of `google_oauth_token.json`);
its content is never inspected by the program. -/
structure Token where
  raw : String
deriving DecidableEq, Repr

/-- The `installed` section of `client_secret.json`. -/
structure ClientSecret where
  client_id : String
  client_secret : String
  auth_uri : String
  token_uri : String
deriving DecidableEq, Repr

/-- The external world visible to the OAuth session constructor:
the token file (absent or its content), the authorization code the operator
types at the interactive prompt, and the token the remote exchange endpoint
returns for a code. -/
structure OAuthWorld where
  token_file : Option Token
  entered_code : String
  exchange : String → Token

/-- `save_token_as_json` (lines 78-80): overwrite `google_oauth_token.json`
with the given token. -/
def save_token_as_json (w : OAuthWorld) (token : Token) : OAuthWorld :=
  ⟨some token, w.entered_code, w.exchange⟩

/-- `redirect_uri = 'urn:ietf:wg:oauth:2.0:oob'`. -/
def redirectUri : String := "urn:ietf:wg:oauth:2.0:oob"

/-- The configuration of the `OAuth2Session` object as constructed by the
program: constructor keyword arguments plus the token the session holds. -/
structure OAuth2SessionState where
  client_id : String
  token : Option Token
  redirect_uri : Option String
  scope : Option (List String)
  auto_refresh_url : String
  auto_refresh_client_id : String
  auto_refresh_client_secret : String
  token_updater : OAuthWorld → Token → OAuthWorld

/-- Result of `create_google_oauth_session`: the session, the world after the
call (token file possibly written), and whether the interactive authorization
prompt was shown. -/
structure SessionResult where
  session : OAuth2SessionState
  world : OAuthWorld
  prompted : Bool

/-- `create_google_oauth_session` (lines 36-75): branch on the existence of
`google_oauth_token.json`.  When it exists, load it and build a session with
auto-refresh configuration and the save callback, with no prompt.  Otherwise
build a session for the interactive flow, prompt for a code, exchange it for
a token, persist the token and return the session holding it. -/
def create_google_oauth_session (secret : ClientSecret) (scopes : List String)
    (w : OAuthWorld) : SessionResult :=
  match w.token_file with
  | some token =>
      ⟨⟨secret.client_id, some token, none, none, secret.token_uri,
        secret.client_id, secret.client_secret, save_token_as_json⟩, w, false⟩
  | none =>
      let token := w.exchange w.entered_code
      ⟨⟨secret.client_id, some token, some redirectUri, some scopes,
        secret.token_uri, secret.client_id, secret.client_secret,
        save_token_as_json⟩,
       save_token_as_json w token, true⟩

/-! ### Task publisher (`post_all_in_asana_task`, lines 148-163) -/

/-- The content of `asana_config.json`. -/
structure AsanaConfig where
  personal_access_token : String
  workspace_id : String
  project_id : String
deriving DecidableEq, Repr

/-- The parameters of one `tasks.create` call. -/
structure AsanaTask where
  workspace : String
  projects : List String
  name : String
  notes : String
deriving DecidableEq, Repr

/-- `post_all_in_asana_task` (lines 148-163), modelled as the list of tasks it
creates: exactly one, named with the MM/DD/YYYY timestamp and carrying the
report string as its notes. -/
def post_all_in_asana_task (asana_config : AsanaConfig)
    (room_util_report_str : String) (utc_now : Date) : List AsanaTask :=
  let todays_date_str := strftimeMDY utc_now
  let name := "Google Calendar Room Utilization Results " ++ todays_date_str
  [⟨asana_config.workspace_id, [asana_config.project_id], name,
    room_util_report_str⟩]

/-! ### CLI entry point (`gen_parser` lines 21-33, `main` lines 176-186) -/

/-- A Python `datetime`: a point in time in seconds together with its
`tzinfo` (none for a naive datetime). -/
structure PyDatetime where
  seconds : Int
  tzinfo : Option String
deriving DecidableEq, Repr

/-- The `pytz.utc` timezone tag. -/
def utcTZ : String := "UTC"

/-- `pytz.utc.localize`: attach the UTC timezone to a datetime. -/
def pytz_utc_localize (d : PyDatetime) : PyDatetime := ⟨d.seconds, some utcTZ⟩

/-- `timedelta(days=n)` in seconds. -/
def timedelta_days (n : Int) : Int := n * 86400

/-- Datetime minus a timedelta: shift the instant, keep the tzinfo. -/
def datetime_sub (d : PyDatetime) (delta : Int) : PyDatetime :=
  ⟨d.seconds - delta, d.tzinfo⟩

/-- `parse_tz_aware_dt` (lines 22-23): `dateutil` parsing (modelled by the
parameter `dparse`, which yields the naive instant the string denotes)
followed by `pytz.utc.localize`. -/
def parse_tz_aware_dt (dparse : String → Int) (dt_str : String) : PyDatetime :=
  pytz_utc_localize ⟨dparse dt_str, none⟩

/-- The two arguments produced by `parser.parse_args()`. -/
structure ParsedArgs where
  start_date : PyDatetime
  end_date : PyDatetime
deriving DecidableEq, Repr

/-- `gen_parser(...).parse_args()` (lines 21-33): each flag, when absent,
falls back to the default passed to `gen_parser`; when present, its string is
parsed with `parse_tz_aware_dt`. -/
def parse_args (dparse : String → Int) (utc_now utc_thirty_days_ago : PyDatetime)
    (start_arg end_arg : Option String) : ParsedArgs :=
  ⟨(match start_arg with
    | none => utc_thirty_days_ago
    | some s => parse_tz_aware_dt dparse s),
   (match end_arg with
    | none => utc_now
    | some s => parse_tz_aware_dt dparse s)⟩

/-- `utc_now = pytz.utc.localize(datetime.utcnow())` (line 177), from the
naive current instant. -/
def main_utc_now (now_naive : Int) : PyDatetime :=
  pytz_utc_localize ⟨now_naive, none⟩

/-- `utc_thirty_days_ago = utc_now - timedelta(days=30)` (line 178). -/
def main_utc_thirty_days_ago (now_naive : Int) : PyDatetime :=
  datetime_sub (main_utc_now now_naive) (timedelta_days 30)

/-- The report-and-post tail of `main` (lines 182-185): generate the report,
then post it as an Asana task; any Python error propagates. -/
def main_pipeline (fetch : Room → Option (List Event)) (room_list : List Room)
    (asana_config : AsanaConfig) (start_date end_date utc_now : Date) :
    Except PyError (List AsanaTask) := do
  let room_util_report_str ←
    generate_room_util_report fetch room_list start_date end_date
  Except.ok (post_all_in_asana_task asana_config room_util_report_str utc_now)

/-! ### Decidability helper -/

/-- Decidable equality for `Except`, so concrete runs can be checked by
`decide`. -/
instance {ε α : Type} [DecidableEq ε] [DecidableEq α] :
    DecidableEq (Except ε α)
  | Except.error e, Except.error f => decidable_of_iff (e = f) (by simp)
  | Except.error _, Except.ok _ => Decidable.isFalse (by simp)
  | Except.ok _, Except.error _ => Decidable.isFalse (by simp)
  | Except.ok x, Except.ok y => decidable_of_iff (x = y) (by simp)

/-! ### Concrete sample data for instantiating the theorems -/

/-- A calendar answering every room with one attendee-less event and one
event whose attendee list holds a declined and an accepted attendee. -/
def wFetch : Room → Option (List Event) :=
  fun _ => some [⟨none⟩, ⟨some [⟨some declinedStr⟩, ⟨some "accepted"⟩]⟩]

/-- A sample four-seat room. -/
def wRoom : Room := ⟨"Room A", "roomA@example.com", 4⟩

/-- A sample six-seat room used where its calendar query comes back empty. -/
def wRoomEmpty : Room := ⟨"Empty Room", "empty@example.com", 6⟩

/-- A sample zero-seat room. -/
def wRoomZero : Room := ⟨"Phone Booth", "booth@example.com", 0⟩

/-- A calendar whose responses carry no `items` key at all. -/
def wFetchNone : Room → Option (List Event) := fun _ => none

/-- A calendar answering every room with a single attendee-less event. -/
def wFetchOne : Room → Option (List Event) := fun _ => some [⟨none⟩]

/-- Sample OAuth client credentials. -/
def wSecret : ClientSecret :=
  ⟨"client-id", "client-secret", "https://auth.example/auth",
    "https://auth.example/token"⟩

/-- A world in which `google_oauth_token.json` already exists. -/
def wWorldCached : OAuthWorld :=
  ⟨some ⟨"cached-token"⟩, "code", fun _ => ⟨"fresh-token"⟩⟩

/-- Sample Asana credentials. -/
def wAsanaConfig : AsanaConfig := ⟨"pat", "workspace-1", "project-1"⟩

/-- A five-seat room for the formatting counterexample. -/
def cRoom : Room := ⟨"Big Room", "big@example.com", 5⟩

/-- 32 events carrying 23 non-declined attendees in total: 23 events without
an attendee list and 9 whose single attendee declined. -/
def cEvents : List Event :=
  List.replicate 23 ⟨none⟩ ++ List.replicate 9 ⟨some [⟨some declinedStr⟩]⟩

/-- A calendar answering every room with `cEvents`: with 5 seats this gives
`A = 23`, `M * S = 160`, whose binary64 utilization prints `14.37` while the
exact rational `14.375` would round to `14.38`. -/
def cFetch : Room → Option (List Event) := fun _ => some cEvents

/-! ## Lemmas about the embedded program -/

/-- Binding a successful `Except` computation runs the continuation. -/
theorem ok_bind {α β : Type} (x : α) (f : α → Except PyError β) :
    ((Except.ok x : Except PyError α) >>= f) = f x := rfl

/-- Binding a failed `Except` computation propagates the error. -/
theorem error_bind {α β : Type} (e : PyError) (f : α → Except PyError β) :
    ((Except.error e : Except PyError α) >>= f) = Except.error e := rfl

/-- Right identity of bind for `Except`. -/
theorem bind_pure_ok {α : Type} (x : Except PyError α) :
    (x >>= fun a => Except.ok a) = x := by cases x <;> rfl

/-- When every attendee entry has a `responseStatus`, the comprehension
returns the non-declined entries. -/
theorem nonDeclined_ok (l : List Attendee)
    (h : ∀ a ∈ l, a.responseStatus.isSome) :
    nonDeclined l =
      Except.ok (l.filter (fun a => a.responseStatus != some declinedStr)) := by
  induction l with
  | nil => rfl
  | cons a rest ih =>
      obtain ⟨s, hs⟩ := Option.isSome_iff_exists.mp (h a (by simp))
      have ih' := ih (fun b hb => h b (List.mem_cons_of_mem a hb))
      simp only [nonDeclined, lookupResponseStatus, hs, ih', ok_bind,
        List.filter_cons]
      by_cases hd : s = declinedStr
      · simp [hd]
      · simp [hd, hs]

/-- An attendee entry without a `responseStatus` makes the comprehension
raise `KeyError`. -/
theorem nonDeclined_keyError (l : List Attendee) (a : Attendee)
    (ha : a ∈ l) (hnone : a.responseStatus = none) :
    nonDeclined l = Except.error PyError.keyError := by
  induction l with
  | nil => cases ha
  | cons b rest ih =>
      rcases List.mem_cons.mp ha with rfl | hmem
      · simp [nonDeclined, lookupResponseStatus, hnone, error_bind]
      · cases hb : b.responseStatus with
        | none => simp [nonDeclined, lookupResponseStatus, hb, error_bind]
        | some s =>
            simp only [nonDeclined, lookupResponseStatus, hb, ok_bind,
              ih hmem, error_bind]

/-- A two-digit pad really has two characters. -/
theorem pad2_len (m : Nat) (h : m < 100) : (pad2 m).length = 2 := by
  interval_cases m <;> rfl

/-- Every rendered binary64 value has a decimal point followed by exactly
two digits. -/
theorem formatF64_2f_shape (x : F64) :
    ∃ ip fp, formatF64_2f x = ip ++ "." ++ fp ∧ fp.length = 2 :=
  ⟨toString (hundredths x / 100), pad2 (hundredths x % 100),
    rfl, pad2_len _ (Nat.mod_lt _ (by norm_num))⟩

/-- Every string the binary64 formatter prints is also the exact-rational
rendering of some rational (namely its own hundredths over 100). -/
theorem formatF64_2f_in_image (x : F64) :
    formatF64_2f x = format0_2f ((hundredths x : ℚ) / 100) := by
  have h1 : ((hundredths x : ℚ) / 100) * 100 = ((hundredths x : Nat) : ℚ) :=
    div_mul_cancel₀ _ (by norm_num)
  have h2 : roundHalfEven (((hundredths x : Nat) : ℚ)) =
      ((hundredths x : Nat) : ℤ) := by
    simp [roundHalfEven, Int.floor_natCast]
  have h3 : ¬ (((hundredths x : Nat) : ℤ) < 0) :=
    not_lt.mpr (Int.natCast_nonneg _)
  simp [formatF64_2f, format0_2f, h1, h2, h3, Int.natAbs_ofNat]

/-- A room whose query returns no events is skipped. -/
theorem processRoom_empty (fetch : Room → Option (List Event)) (r : Room)
    (h : roomEvents fetch r = []) : processRoom fetch r = Except.ok none := by
  simp [processRoom, h]

/-- Successful per-room processing: the emitted line carries the binary64
evaluation of `attendees / float(meetings * seats) * 100`. -/
theorem processRoom_nonempty (fetch : Room → Option (List Event)) (r : Room)
    (A : Nat) (hne : roomEvents fetch r ≠ [])
    (hA : countAttendees (roomEvents fetch r) = Except.ok A)
    (hS : 0 < r.room_seats) :
    processRoom fetch r = Except.ok (some (r.name ++ utilLabel ++
      formatF64_2f (mulF64 (divF64 (natToF64 A)
        (natToF64 ((roomEvents fetch r).length * r.room_seats)))
        (natToF64 100)))) := by
  have hlen : (roomEvents fetch r).length ≠ 0 := by
    simpa [List.length_eq_zero] using hne
  have hcap : (roomEvents fetch r).length * r.room_seats ≠ 0 :=
    Nat.mul_ne_zero hlen (Nat.pos_iff_ne_zero.mp hS)
  simp only [processRoom, List.isEmpty_iff, hne, if_false, hA, ok_bind,
    hcap, if_false]

/-- A zero-seat room with events makes the utilization computation divide by
zero. -/
theorem processRoom_zero_seats (fetch : Room → Option (List Event)) (r : Room)
    (A : Nat) (hseats : r.room_seats = 0) (hne : roomEvents fetch r ≠ [])
    (hA : countAttendees (roomEvents fetch r) = Except.ok A) :
    processRoom fetch r = Except.error PyError.zeroDivisionError := by
  simp [processRoom, List.isEmpty_iff, hne, hA, ok_bind, hseats]

/-- Any line the per-room loop emits has the fixed two-field form, with some
rational as the rendered value. -/
theorem processRoom_ok_some (fetch : Room → Option (List Event)) (r : Room)
    (s : String) (h : processRoom fetch r = Except.ok (some s)) :
    ∃ u : ℚ, s = r.name ++ utilLabel ++ format0_2f u := by
  by_cases he : (roomEvents fetch r).isEmpty
  · simp [processRoom, he] at h
  · cases hA : countAttendees (roomEvents fetch r) with
    | error e => simp [processRoom, he, hA, error_bind] at h
    | ok A =>
        simp only [processRoom, Bool.not_eq_true] at he
        simp only [processRoom, he, Bool.false_eq_true, if_false, hA, ok_bind] at h
        split at h
        · exact absurd h (by simp)
        · have hinj := Option.some.inj (Except.ok.inj h)
          refine ⟨(hundredths (mulF64 (divF64 (natToF64 A)
            (natToF64 ((roomEvents fetch r).length * r.room_seats)))
            (natToF64 100)) : ℚ) / 100, ?_⟩
          rw [← hinj, formatF64_2f_in_image]

/-- Rooms whose queries all come back empty produce no lines. -/
theorem collectRoomStrs_all_empty (fetch : Room → Option (List Event))
    (rooms : List Room) (h : ∀ r ∈ rooms, roomEvents fetch r = []) :
    collectRoomStrs fetch rooms = Except.ok [] := by
  induction rooms with
  | nil => rfl
  | cons r rest ih =>
      simp [collectRoomStrs, processRoom_empty fetch r (h r (by simp)), ok_bind,
        ih (fun b hb => h b (List.mem_cons_of_mem r hb))]

/-- Dropping a room whose query comes back empty does not change the
collected lines. -/
theorem collectRoomStrs_skip (fetch : Room → Option (List Event))
    (l1 l2 : List Room) (r : Room) (h : roomEvents fetch r = []) :
    collectRoomStrs fetch (l1 ++ r :: l2) = collectRoomStrs fetch (l1 ++ l2) := by
  induction l1 with
  | nil =>
      simp only [List.nil_append, collectRoomStrs,
        processRoom_empty fetch r h, ok_bind]
      exact bind_pure_ok _
  | cons b rest ih =>
      simp only [List.cons_append, collectRoomStrs, List.append_eq, ih]

/-- If processing any listed room raises, the whole loop raises. -/
theorem collectRoomStrs_error_of_mem (fetch : Room → Option (List Event))
    (rooms : List Room) (r : Room) (hr : r ∈ rooms) (er : PyError)
    (he : processRoom fetch r = Except.error er) :
    ∃ e, collectRoomStrs fetch rooms = Except.error e := by
  induction rooms with
  | nil => cases hr
  | cons b rest ih =>
      cases hb : processRoom fetch b with
      | error e => exact ⟨e, by simp [collectRoomStrs, hb, error_bind]⟩
      | ok s? =>
          rcases List.mem_cons.mp hr with rfl | hmem
          · rw [hb] at he; cases he
          · obtain ⟨e, hcol⟩ := ih hmem
            exact ⟨e, by simp [collectRoomStrs, hb, ok_bind, hcol, error_bind]⟩

/-- Every collected line comes from a listed room and has the fixed two-field
form. -/
theorem collectRoomStrs_shape (fetch : Room → Option (List Event))
    (rooms : List Room) (strs : List String)
    (h : collectRoomStrs fetch rooms = Except.ok strs) :
    ∀ s ∈ strs, ∃ r ∈ rooms, ∃ u : ℚ, s = r.name ++ utilLabel ++ format0_2f u := by
  induction rooms generalizing strs with
  | nil =>
      cases h
      simp
  | cons b rest ih =>
      cases hb : processRoom fetch b with
      | error e => simp [collectRoomStrs, hb, error_bind] at h
      | ok s? =>
          cases htl : collectRoomStrs fetch rest with
          | error e => simp [collectRoomStrs, hb, ok_bind, htl, error_bind] at h
          | ok tl =>
              cases s? with
              | none =>
                  have hst : strs = tl := by
                    have h2 := h
                    simp only [collectRoomStrs, hb, ok_bind, htl] at h2
                    exact (Except.ok.inj h2).symm
                  subst hst
                  intro s hs
                  obtain ⟨r, hr, u, hu⟩ := ih _ htl s hs
                  exact ⟨r, List.mem_cons_of_mem b hr, u, hu⟩
              | some line =>
                  have hst : strs = line :: tl := by
                    have h2 := h
                    simp only [collectRoomStrs, hb, ok_bind, htl] at h2
                    exact (Except.ok.inj h2).symm
                  subst hst
                  intro s hs
                  rcases List.mem_cons.mp hs with rfl | hmem
                  · obtain ⟨u, hu⟩ := processRoom_ok_some fetch b s hb
                    exact ⟨b, List.mem_cons_self b rest, u, hu⟩
                  · obtain ⟨r, hr, u, hu⟩ := ih _ htl s hmem
                    exact ⟨r, List.mem_cons_of_mem b hr, u, hu⟩

/-! ## The claims -/

/-- Claim C1, as frozen, is false on the code: the program computes the
utilization in binary64, not in exact arithmetic.  For `A = 23` non-declined
attendees over `M * S = 160` (32 events in a 5-seat room) the exact value
`100 * 23 / 160 = 14.375` rounds to `14.38`, but the double computed by
line 127 lies strictly below `14.375` and the program prints `14.37`. -/
theorem utilization_line_formula_cex :
    processRoom cFetch cRoom ≠ Except.ok (some (cRoom.name ++ utilLabel ++
      format0_2f (100 * ((23 : Nat) : ℚ) /
        (((roomEvents cFetch cRoom).length * cRoom.room_seats : Nat) : ℚ)))) := by
  have h1 : processRoom cFetch cRoom =
      Except.ok (some "Big Room Utilization %: 14.37") := by decide
  have hl : (roomEvents cFetch cRoom).length * cRoom.room_seats = 160 := by decide
  have h2 : format0_2f (100 * ((23 : Nat) : ℚ) /
      (((roomEvents cFetch cRoom).length * cRoom.room_seats : Nat) : ℚ)) =
      "14.38" := by
    rw [hl]
    have hq : 100 * ((23 : Nat) : ℚ) / ((160 : Nat) : ℚ) * 100 = 2875 / 2 := by
      push_cast
      norm_num
    have hfl : ⌊(2875 / 2 : ℚ)⌋ = 1437 := by norm_num
    have hr : roundHalfEven (100 * ((23 : Nat) : ℚ) / ((160 : Nat) : ℚ) * 100) =
        1438 := by
      rw [roundHalfEven, hq, hfl]
      norm_num
    rw [format0_2f, hr]
    rfl
  rw [h1, h2]
  decide

/-- Claim C1 (amended): for a room with `room_seats = S > 0` yielding
`M ≥ 1` events with `A` non-declined attendees in total, with `A` and
`M * S` below `2^53` (so int-to-float conversion is exact and the arithmetic
stays in binary64's normal range), the report line carries
`A / float(M * S) * 100` evaluated in IEEE-754 binary64 with round to
nearest, ties to even, rendered with exactly two digits after the decimal
point (correctly rounded, ties to even). -/
theorem utilization_line_formula (fetch : Room → Option (List Event)) (r : Room)
    (A : Nat) (hS : 0 < r.room_seats) (hne : roomEvents fetch r ≠ [])
    (hA : countAttendees (roomEvents fetch r) = Except.ok A)
    (hA53 : A < 2 ^ 53)
    (hcap53 : (roomEvents fetch r).length * r.room_seats < 2 ^ 53) :
    processRoom fetch r = Except.ok (some (r.name ++ utilLabel ++
      formatF64_2f (mulF64 (divF64 (natToF64 A)
        (natToF64 ((roomEvents fetch r).length * r.room_seats)))
        (natToF64 100)))) ∧
    ∃ ip fp,
      formatF64_2f (mulF64 (divF64 (natToF64 A)
        (natToF64 ((roomEvents fetch r).length * r.room_seats)))
        (natToF64 100)) = ip ++ "." ++ fp ∧ fp.length = 2 :=
  ⟨processRoom_nonempty fetch r A hne hA hS, formatF64_2f_shape _⟩

/-- Witness for C1: a four-seat room with two events and two non-declined
attendees; the line reads `25.00`. -/
theorem utilization_line_formula_witness :
    (0 < wRoom.room_seats ∧ roomEvents wFetch wRoom ≠ [] ∧
      countAttendees (roomEvents wFetch wRoom) = Except.ok 2 ∧
      2 < 2 ^ 53 ∧
      (roomEvents wFetch wRoom).length * wRoom.room_seats < 2 ^ 53) ∧
    (processRoom wFetch wRoom = Except.ok (some (wRoom.name ++ utilLabel ++
      formatF64_2f (mulF64 (divF64 (natToF64 2)
        (natToF64 ((roomEvents wFetch wRoom).length * wRoom.room_seats)))
        (natToF64 100)))) ∧
    ∃ ip fp,
      formatF64_2f (mulF64 (divF64 (natToF64 2)
        (natToF64 ((roomEvents wFetch wRoom).length * wRoom.room_seats)))
        (natToF64 100)) = ip ++ "." ++ fp ∧ fp.length = 2) :=
  ⟨⟨by decide, by decide, by decide, by decide, by decide⟩,
    utilization_line_formula wFetch wRoom 2 (by decide) (by decide) (by decide)
      (by decide) (by decide)⟩

/-- Claim C2: an event without an `attendees` key contributes exactly 1; an
event with an attendee list contributes the number of attendees whose
`responseStatus` is not `"declined"`, so the declined/accepted pair
contributes 1, not 2. -/
theorem attendee_contribution_rule (e : Event) :
    (e.attendees = none → eventAttendeeContribution e = Except.ok 1) ∧
    (∀ l, e.attendees = some l → (∀ a ∈ l, a.responseStatus.isSome) →
      eventAttendeeContribution e =
        Except.ok (l.filter (fun a => a.responseStatus != some declinedStr)).length) ∧
    eventAttendeeContribution
      ⟨some [⟨some declinedStr⟩, ⟨some "accepted"⟩]⟩ = Except.ok 1 := by
  refine ⟨?_, ?_, by decide⟩
  · intro h
    simp [eventAttendeeContribution, h]
  · intro l hl hall
    simp [eventAttendeeContribution, hl, nonDeclined_ok l hall, ok_bind]

/-- Witness for C2: an event with no attendee list contributes 1. -/
theorem attendee_contribution_rule_witness :
    eventAttendeeContribution ⟨none⟩ = Except.ok 1 :=
  (attendee_contribution_rule ⟨none⟩).1 rfl

/-- Claim C3: a room whose calendar query returns zero events (an empty or
absent `items` array) contributes no line to the report: the report over a
room list containing it equals the report over the list without it. -/
theorem empty_room_omitted (fetch : Room → Option (List Event))
    (l1 l2 : List Room) (r : Room) (s e : Date)
    (h : roomEvents fetch r = []) :
    generate_room_util_report fetch (l1 ++ r :: l2) s e =
      generate_room_util_report fetch (l1 ++ l2) s e := by
  simp only [generate_room_util_report, collectRoomStrs_skip fetch l1 l2 r h]

/-- Witness for C3: dropping a room whose query response has no `items`. -/
theorem empty_room_omitted_witness :
    roomEvents wFetchNone wRoomEmpty = [] ∧
    generate_room_util_report wFetchNone ([wRoom] ++ wRoomEmpty :: [])
        ⟨2021, 1, 1⟩ ⟨2021, 1, 31⟩ =
      generate_room_util_report wFetchNone ([wRoom] ++ [])
        ⟨2021, 1, 1⟩ ⟨2021, 1, 31⟩ :=
  ⟨by decide,
    empty_room_omitted wFetchNone [wRoom] [] wRoomEmpty
      ⟨2021, 1, 1⟩ ⟨2021, 1, 31⟩ (by decide)⟩

/-- Claim C4: a zero-seat room that yields at least one event (and whose
attendee counting completes) makes the utilization computation divide by
zero, and a run whose room list contains such a room fails with an uncaught
error. -/
theorem zero_seats_division_error (fetch : Room → Option (List Event))
    (room_list : List Room) (r : Room) (s e : Date)
    (hseats : r.room_seats = 0) (hne : roomEvents fetch r ≠ [])
    (hcount : ∃ A, countAttendees (roomEvents fetch r) = Except.ok A) :
    processRoom fetch r = Except.error PyError.zeroDivisionError ∧
    (r ∈ room_list →
      ∃ er, generate_room_util_report fetch room_list s e = Except.error er) := by
  obtain ⟨A, hA⟩ := hcount
  have hp := processRoom_zero_seats fetch r A hseats hne hA
  refine ⟨hp, fun hmem => ?_⟩
  obtain ⟨e', hc⟩ := collectRoomStrs_error_of_mem fetch room_list r hmem _ hp
  exact ⟨e', by simp [generate_room_util_report, hc, error_bind]⟩

/-- Witness for C4: a zero-seat room with one event. -/
theorem zero_seats_division_error_witness :
    (wRoomZero.room_seats = 0 ∧ roomEvents wFetchOne wRoomZero ≠ [] ∧
      countAttendees (roomEvents wFetchOne wRoomZero) = Except.ok 1) ∧
    (processRoom wFetchOne wRoomZero = Except.error PyError.zeroDivisionError ∧
      (wRoomZero ∈ [wRoomZero] →
        ∃ er, generate_room_util_report wFetchOne [wRoomZero]
          ⟨2021, 1, 1⟩ ⟨2021, 1, 31⟩ = Except.error er)) :=
  ⟨⟨rfl, by decide, by decide⟩,
    zero_seats_division_error wFetchOne [wRoomZero] wRoomZero
      ⟨2021, 1, 1⟩ ⟨2021, 1, 31⟩ rfl (by decide) ⟨1, by decide⟩⟩

/-- Claim C5: the OAuth session constructor branches solely on the existence
of the token file.  With a token file it loads the token into a session
configured for automatic refresh with the persisting save callback and shows
no prompt; without one it runs the interactive flow, returns the session
holding the fetched token and persists that token. -/
theorem oauth_session_branching (secret : ClientSecret) (scopes : List String)
    (w : OAuthWorld) :
    (∀ t, w.token_file = some t →
      create_google_oauth_session secret scopes w =
        ⟨⟨secret.client_id, some t, none, none, secret.token_uri,
          secret.client_id, secret.client_secret, save_token_as_json⟩, w, false⟩) ∧
    (w.token_file = none →
      create_google_oauth_session secret scopes w =
        ⟨⟨secret.client_id, some (w.exchange w.entered_code), some redirectUri,
          some scopes, secret.token_uri, secret.client_id, secret.client_secret,
          save_token_as_json⟩,
        save_token_as_json w (w.exchange w.entered_code), true⟩) ∧
    (∀ t, (save_token_as_json w t).token_file = some t) := by
  refine ⟨?_, ?_, fun t => rfl⟩
  · intro t ht
    simp [create_google_oauth_session, ht]
  · intro ht
    simp [create_google_oauth_session, ht]

/-- Witness for C5: with a cached token the session is built for automatic
refresh, the world is untouched and no prompt is shown. -/
theorem oauth_session_branching_witness :
    wWorldCached.token_file = some ⟨"cached-token"⟩ ∧
    create_google_oauth_session wSecret ["scope"] wWorldCached =
      ⟨⟨wSecret.client_id, some ⟨"cached-token"⟩, none, none, wSecret.token_uri,
        wSecret.client_id, wSecret.client_secret, save_token_as_json⟩,
      wWorldCached, false⟩ :=
  ⟨rfl,
    (oauth_session_branching wSecret ["scope"] wWorldCached).1 ⟨"cached-token"⟩ rfl⟩

set_option maxRecDepth 8192 in
/-- Claim C6: the report is the fixed preamble with the dates substituted in
MM/DD/YYYY format, followed by the per-room lines of the form
`<room_name> Utilization %: <value>` joined with a single newline; for
2021-01-01 and 2021-01-31 the header reads
`between 01/01/2021 and 01/31/2021`. -/
theorem report_format (fetch : Room → Option (List Event))
    (room_list : List Room) (s e : Date) (strs : List String)
    (h : collectRoomStrs fetch room_list = Except.ok strs) :
    generate_room_util_report fetch room_list s e =
      Except.ok (reportPreamble s e ++ String.intercalate newline strs) ∧
    (∀ str ∈ strs, ∃ r ∈ room_list, ∃ u : ℚ,
      str = r.name ++ utilLabel ++ format0_2f u) ∧
    reportPreamble ⟨2021, 1, 1⟩ ⟨2021, 1, 31⟩ =
      "The room data below is pulled from calendar events between 01/01/2021 " ++
      "and 01/31/2021. \n\nConference room utilization = (number of attendees " ++
      "for meetings in last 30 days) / (number of meetings * max occupancy of " ++
      "room). The count of seats includes non-Asana folks and office hours. " ++
      "If a room has > 100% that means generally it\x27s over occupied. This " ++
      "seems to be the case for most of the phone rooms likely due to " ++
      "customers being invited on the calendar invite. The seat count " ++
      "includes accepted and non-responded calendar invites.\n\n" :=
  ⟨by simp [generate_room_util_report, h, ok_bind],
    collectRoomStrs_shape fetch room_list strs h, rfl⟩

set_option maxRecDepth 8192 in
/-- Witness for C6 at an empty room list. -/
theorem report_format_witness :
    collectRoomStrs wFetchNone [] = Except.ok [] ∧
    (generate_room_util_report wFetchNone [] ⟨2021, 1, 1⟩ ⟨2021, 1, 31⟩ =
      Except.ok (reportPreamble ⟨2021, 1, 1⟩ ⟨2021, 1, 31⟩ ++
        String.intercalate newline []) ∧
    (∀ str ∈ ([] : List String), ∃ r ∈ ([] : List Room), ∃ u : ℚ,
      str = r.name ++ utilLabel ++ format0_2f u) ∧
    reportPreamble ⟨2021, 1, 1⟩ ⟨2021, 1, 31⟩ =
      "The room data below is pulled from calendar events between 01/01/2021 " ++
      "and 01/31/2021. \n\nConference room utilization = (number of attendees " ++
      "for meetings in last 30 days) / (number of meetings * max occupancy of " ++
      "room). The count of seats includes non-Asana folks and office hours. " ++
      "If a room has > 100% that means generally it\x27s over occupied. This " ++
      "seems to be the case for most of the phone rooms likely due to " ++
      "customers being invited on the calendar invite. The seat count " ++
      "includes accepted and non-responded calendar invites.\n\n") :=
  ⟨rfl, report_format wFetchNone [] ⟨2021, 1, 1⟩ ⟨2021, 1, 31⟩ [] rfl⟩

/-- Claim C7: the task publisher creates exactly one task, named
`Google Calendar Room Utilization Results <MM/DD/YYYY>` in the configured
workspace and project, whose notes equal the report string verbatim. -/
theorem asana_task_contract (asana_config : AsanaConfig) (report : String)
    (utc_now : Date) :
    post_all_in_asana_task asana_config report utc_now =
      [⟨asana_config.workspace_id, [asana_config.project_id],
        "Google Calendar Room Utilization Results " ++ strftimeMDY utc_now,
        report⟩] ∧
    (post_all_in_asana_task asana_config report utc_now).length = 1 :=
  ⟨rfl, rfl⟩

/-- Claim C8: without flags the range defaults to the 30 days ending at the
current UTC instant, both endpoints UTC-aware; a supplied flag is parsed and
localized as a UTC-aware timestamp overriding the corresponding default. -/
theorem cli_date_range (dparse : String → Int) (n : Int) :
    (parse_args dparse (main_utc_now n) (main_utc_thirty_days_ago n) none none =
      ⟨⟨n - 30 * 86400, some utcTZ⟩, ⟨n, some utcTZ⟩⟩) ∧
    (∀ s, parse_args dparse (main_utc_now n) (main_utc_thirty_days_ago n)
        (some s) none =
      ⟨⟨dparse s, some utcTZ⟩, ⟨n, some utcTZ⟩⟩) ∧
    (∀ es, parse_args dparse (main_utc_now n) (main_utc_thirty_days_ago n)
        none (some es) =
      ⟨⟨n - 30 * 86400, some utcTZ⟩, ⟨dparse es, some utcTZ⟩⟩) ∧
    (∀ s es, parse_args dparse (main_utc_now n) (main_utc_thirty_days_ago n)
        (some s) (some es) =
      ⟨⟨dparse s, some utcTZ⟩, ⟨dparse es, some utcTZ⟩⟩) :=
  ⟨rfl, fun _ => rfl, fun _ => rfl, fun _ _ => rfl⟩

/-- Claim C9: an attendee entry lacking the `responseStatus` key makes the
attendee count raise an uncaught `KeyError`; when every entry has the key,
counting succeeds and the error branch is unreachable. -/
theorem missing_response_status (e : Event) (l : List Attendee)
    (hl : e.attendees = some l) :
    ((∃ a ∈ l, a.responseStatus = none) →
      eventAttendeeContribution e = Except.error PyError.keyError) ∧
    ((∀ a ∈ l, a.responseStatus.isSome) →
      ∃ n, eventAttendeeContribution e = Except.ok n) := by
  constructor
  · rintro ⟨a, ha, hnone⟩
    simp [eventAttendeeContribution, hl,
      nonDeclined_keyError l a ha hnone, error_bind]
  · intro hall
    exact ⟨(l.filter (fun a => a.responseStatus != some declinedStr)).length,
      by simp [eventAttendeeContribution, hl, nonDeclined_ok l hall, ok_bind]⟩

/-- Witness for C9: a single attendee entry without `responseStatus`. -/
theorem missing_response_status_witness :
    eventAttendeeContribution ⟨some [⟨none⟩]⟩ = Except.error PyError.keyError :=
  (missing_response_status ⟨some [⟨none⟩]⟩ [⟨none⟩] rfl).1
    ⟨⟨none⟩, List.mem_singleton.mpr rfl, rfl⟩

/-- Claim C10: when the room list is empty or every room yields zero events,
the pipeline still succeeds and posts the preamble-only report (the empty
join of zero room lines) as an Asana task. -/
theorem empty_rooms_still_posts (fetch : Room → Option (List Event))
    (room_list : List Room) (asana_config : AsanaConfig) (s e now : Date)
    (h : ∀ r ∈ room_list, roomEvents fetch r = []) :
    main_pipeline fetch room_list asana_config s e now =
      Except.ok [⟨asana_config.workspace_id, [asana_config.project_id],
        "Google Calendar Room Utilization Results " ++ strftimeMDY now,
        reportPreamble s e ++ String.intercalate newline []⟩] := by
  have hc := collectRoomStrs_all_empty fetch room_list h
  simp [main_pipeline, generate_room_util_report, hc, ok_bind,
    post_all_in_asana_task]

/-- Witness for C10: one room whose query yields no events. -/
theorem empty_rooms_still_posts_witness :
    (∀ r ∈ [wRoomEmpty], roomEvents wFetchNone r = []) ∧
    main_pipeline wFetchNone [wRoomEmpty] wAsanaConfig
        ⟨2021, 1, 1⟩ ⟨2021, 1, 31⟩ ⟨2021, 2, 1⟩ =
      Except.ok [⟨wAsanaConfig.workspace_id, [wAsanaConfig.project_id],
        "Google Calendar Room Utilization Results " ++ strftimeMDY ⟨2021, 2, 1⟩,
        reportPreamble ⟨2021, 1, 1⟩ ⟨2021, 1, 31⟩ ++
          String.intercalate newline []⟩] :=
  ⟨by decide,
    empty_rooms_still_posts wFetchNone [wRoomEmpty] wAsanaConfig
      ⟨2021, 1, 1⟩ ⟨2021, 1, 31⟩ ⟨2021, 2, 1⟩ (by decide)⟩

end RoomUtil
